import Mathlib

/-!
Shallow embedding of the UPBGE debugger server (`src/server3.py`).

Conventions of the embedding:
* Python floats are read as exact rationals (`ℚ`); float arithmetic is
  idealized as exact rational arithmetic.  The float value of `math.pi`
  is the IEEE-754 double nearest π, which is itself a rational.
* Fallible Python code is embedded as `Except String`/`Option`; the string
  carried by `.error` stands for `str(e)` of the raised exception.
* The live BGE scene (`bge.logic.getCurrentScene().objects`) is a list of
  `GameObject`s.  An object's `worldOrientation` matrix is represented by
  its canonical Euler decomposition (`.to_euler()` of the matrix), so
  `to_euler` and `to_matrix` are the identity on this representation.
* The module-level globals (`clients`, `selected_object`, `mouse_visible`,
  the engine time scale, and the frame rate read by `get_game_info`) are the
  fields of `ServerState`.  The global `reported_errors` is never read or
  written by any handler and is omitted.
* One scheduling unit per connection plus one broadcast task: the
  per-connection message loop is embedded as a fold over the list of
  inbound frames, and one `asyncio.gather` fan-out is embedded as a
  function from the client list to the deliveries it performs plus the
  exception it re-raises (gather without `return_exceptions=True` runs
  every child to completion and re-raises the first failure).
-/

/-- Banker's rounding of a rational to an integer, as Python's built-in
`round` ties-to-even rule. -/
def roundHalfEven (q : ℚ) : ℤ :=
  let n : ℤ := ⌊q⌋
  let r : ℚ := q - n
  if r < 1/2 then n
  else if 1/2 < r then n + 1
  else if n % 2 = 0 then n else n + 1

/-- Python `round(value, digits)` on the exact rational reading of a float. -/
def pyRound (q : ℚ) (digits : Nat) : ℚ :=
  (roundHalfEven (q * 10 ^ digits) : ℚ) / 10 ^ digits

mutual
/-- Values the source's `truncate` may receive: floats, ints, bools, strings,
3-component `mathutils` vectors/eulers, and (nested) Python lists. -/
inductive TVal where
  | float (q : ℚ)
  | int (n : ℤ)
  | bool (b : Bool)
  | str (s : String)
  | vec (x y z : ℚ)
  | list (xs : TValList)

/-- A Python list of `TVal`s (kept as a mutual inductive so that structural
recursion and induction over nested lists stay primitive). -/
inductive TValList where
  | nil
  | cons (v : TVal) (vs : TValList)
end

/-- Length of a `TValList`. -/
def TValList.length : TValList → Nat
  | .nil => 0
  | .cons _ vs => 1 + vs.length

mutual
/-- `truncate(value, digits=3)` from `server3.py` lines 16-21: a float is
rounded to `digits` decimal places; a list, Vector or Euler is truncated
element-wise (a Vector/Euler iterates as its three float components and
comes back as a Python list); anything else is returned unchanged. -/
def truncate : TVal → Nat → TVal
  | .float q, digits => .float (pyRound q digits)
  | .list xs, digits => .list (truncateList xs digits)
  | .vec x y z, digits =>
      .list (.cons (.float (pyRound x digits))
        (.cons (.float (pyRound y digits)) (.cons (.float (pyRound z digits)) .nil)))
  | .int n, _ => .int n
  | .bool b, _ => .bool b
  | .str s, _ => .str s

/-- Element-wise `truncate` over a Python list (the comprehension
`[truncate(v, digits) for v in value]`). -/
def truncateList : TValList → Nat → TValList
  | .nil, _ => .nil
  | .cons v vs, digits => .cons (truncate v digits) (truncateList vs digits)
end

/-- The IEEE-754 double nearest π (the value of Python's `math.pi`),
as an exact rational. -/
def PI : ℚ := 884279719003555 / 281474976710656

/-- `math.radians`: degrees to radians. -/
def radians (q : ℚ) : ℚ := q * (PI / 180)

/-- `math.degrees`: radians to degrees. -/
def degrees (q : ℚ) : ℚ := q * 180 / PI

/-- A 3-component vector (`mathutils.Vector` / `mathutils.Euler`). -/
structure Vec3 where
  x : ℚ
  y : ℚ
  z : ℚ
  deriving DecidableEq, Repr

/-- A Python value stored in a game property of an object.  In Python,
`bool` is a subclass of `int`; the embedding keeps the constructors separate
and encodes the subclass relation in `isinstIntFloat` below. -/
inductive PyVal where
  | int (n : ℤ)
  | float (q : ℚ)
  | bool (b : Bool)
  | str (s : String)
  | vec (x y z : ℚ)
  deriving DecidableEq, Repr

/-- `isinstance(v, (int, float))`.  Python's `bool` is a subclass of `int`,
so a boolean satisfies this check. -/
def isinstIntFloat : PyVal → Bool
  | .int _ => true
  | .float _ => true
  | .bool _ => true
  | _ => false

/-- `isinstance(v, bool)`. -/
def isinstBool : PyVal → Bool
  | .bool _ => true
  | _ => false

/-- One object of the live scene.  `worldOrientationEuler` is the canonical
Euler decomposition of the object's `worldOrientation` matrix (radians);
`physicsId` is the truthiness of `obj.getPhysicsId()`; `meshes` is the list
of meshes, each given by its material-name list. -/
structure GameObject where
  name : String
  worldPosition : Vec3
  worldOrientationEuler : Vec3
  worldScale : Vec3
  visible : Bool
  mass : ℚ
  linearVelocity : Vec3
  angularVelocity : Vec3
  physicsId : Bool
  props : List (String × PyVal)
  meshes : List (List String)
  deriving DecidableEq, Repr

/-- The live object graph `bge.logic.getCurrentScene().objects`. -/
abbrev Scene := List GameObject

/-- `scene.objects.get(name)`: the first object with the given name, if any. -/
def scene_get (s : Scene) (n : String) : Option GameObject :=
  s.find? (fun o => o.name == n)

/-- Mutating the object returned by `scene.objects.get(n)`: apply `f` to the
first object named `n`, leave all others untouched. -/
def scene_update_first : Scene → String → (GameObject → GameObject) → Scene
  | [], _, _ => []
  | o :: rest, n, f =>
      if o.name == n then f o :: rest else o :: scene_update_first rest n f

/-- `obj[key]` read on the game-property dict. -/
def prop_get (l : List (String × PyVal)) (k : String) : Option PyVal :=
  (l.find? (fun kv => kv.1 == k)).map (fun kv => kv.2)

/-- `obj[key] = v` write on the game-property dict (replace the first binding
of `k`, or append a new one). -/
def prop_set : List (String × PyVal) → String → PyVal → List (String × PyVal)
  | [], k, v => [(k, v)]
  | (k', v') :: rest, k, v =>
      if k' == k then (k, v) :: rest else (k', v') :: prop_set rest k v

/-- Numeric value of a digit string (most significant first). -/
def digitsToNat (ds : List Char) : ℕ :=
  ds.foldl (fun acc c => acc * 10 + (c.toNat - 48)) 0

/-- Python's `float(s)` on a string, as far as the protocol exercises it:
an optional sign, decimal digits, and an optional fractional part.
(Exponents, `inf`/`nan`, underscores and surrounding whitespace are not used
by any message this server handles and are rejected here.)  `none` models
the `ValueError` that `float` raises on an unconvertible string. -/
def pyFloatOfString (s : String) : Option ℚ :=
  let cs := s.toList
  let signAndRest : ℚ × List Char :=
    match cs with
    | '-' :: rest => (-1, rest)
    | '+' :: rest => (1, rest)
    | _ => (1, cs)
  let sign := signAndRest.1
  let body := signAndRest.2
  let intPart := body.takeWhile (fun c => c.isDigit)
  let rest := body.dropWhile (fun c => c.isDigit)
  match rest with
  | [] =>
      if intPart.isEmpty then none
      else some (sign * (digitsToNat intPart : ℚ))
  | '.' :: rest2 =>
      let fracPart := rest2.takeWhile (fun c => c.isDigit)
      let rest3 := rest2.dropWhile (fun c => c.isDigit)
      if rest3.isEmpty && !(intPart.isEmpty && fracPart.isEmpty) then
        some (sign * ((digitsToNat intPart : ℚ)
          + (digitsToNat fracPart : ℚ) / 10 ^ fracPart.length))
      else none
  | _ => none

/-- `float(s)` with the `ValueError` it raises made explicit. -/
def pyFloatE (s : String) : Except String ℚ :=
  match pyFloatOfString s with
  | some q => .ok q
  | none => .error ("could not convert string to float: '" ++ s ++ "'")

/-- `getattr`-style read of one vector component by axis name. -/
def vec_getattr (v : Vec3) (axis : String) : Option ℚ :=
  if axis = "x" then some v.x
  else if axis = "y" then some v.y
  else if axis = "z" then some v.z
  else none

/-- `setattr(vector, axis, q)`: set one component; any other attribute name
raises `AttributeError`. -/
def vec_setattr (v : Vec3) (axis : String) (q : ℚ) : Except String Vec3 :=
  if axis = "x" then .ok { v with x := q }
  else if axis = "y" then .ok { v with y := q }
  else if axis = "z" then .ok { v with z := q }
  else .error ("AttributeError: " ++ axis)

/-- `'xyz'.index(axis)` for an axis name; a string not occurring in
`'xyz'` raises `ValueError: substring not found`. -/
def str_index_xyz (axis : String) : Except String ℕ :=
  if axis = "x" then .ok 0
  else if axis = "y" then .ok 1
  else if axis = "z" then .ok 2
  else .error "substring not found"

/-- `euler[index] = q`: indexed assignment into an Euler triple. -/
def euler_set (v : Vec3) (i : ℕ) (q : ℚ) : Vec3 :=
  match i with
  | 0 => { v with x := q }
  | 1 => { v with y := q }
  | _ => { v with z := q }

/-- Shorthand for the scalar `truncate` at its default precision of 3. -/
def truncate3 (q : ℚ) : ℚ := pyRound q 3

/-- Component-wise `truncate` of a vector read. -/
def vec_truncate (v : Vec3) : Vec3 :=
  ⟨truncate3 v.x, truncate3 v.y, truncate3 v.z⟩

/-- The `basic` block of an object snapshot (`rotation` is in degrees). -/
structure BasicBlock where
  position : Vec3
  rotation : Vec3
  scale : Vec3
  deriving DecidableEq, Repr

/-- The `physics` block: either the placeholder `{"status": "Not applicable"}`
or the mass/velocity snapshot. -/
inductive PhysicsBlock where
  | notApplicable
  | phys (mass : ℚ) (linearVelocity angularVelocity : Vec3)
  deriving DecidableEq, Repr

/-- A value of the `game` block: a truncated scalar or an `{x, y, z}` dict. -/
inductive GameVal where
  | int (n : ℤ)
  | float (q : ℚ)
  | bool (b : Bool)
  | str (s : String)
  | vec3 (x y z : ℚ)
  deriving DecidableEq, Repr

/-- `properties["game"][key] = ...` of `send_object_properties`: scalars go
through `truncate` (which rounds floats and passes ints/bools/strings
through), Vector/Euler values become a truncated `{x, y, z}` dict. -/
def game_prop_val : PyVal → GameVal
  | .int n => .int n
  | .float q => .float (truncate3 q)
  | .bool b => .bool b
  | .str s => .str s
  | .vec x y z => .vec3 (truncate3 x) (truncate3 y) (truncate3 z)

/-- The object-properties payload built by `send_object_properties`. -/
structure ObjectSnapshot where
  basic : BasicBlock
  physics : PhysicsBlock
  game : List (String × GameVal)
  materials : List String
  deriving DecidableEq, Repr

/-- The snapshot dictionary built inside `send_object_properties`'s `try`
block (`server3.py` lines 151-208). -/
def build_snapshot (obj : GameObject) : ObjectSnapshot :=
  { basic :=
      { position := vec_truncate obj.worldPosition
        rotation :=
          ⟨truncate3 (degrees obj.worldOrientationEuler.x),
           truncate3 (degrees obj.worldOrientationEuler.y),
           truncate3 (degrees obj.worldOrientationEuler.z)⟩
        scale := vec_truncate obj.worldScale }
    physics :=
      if obj.physicsId then
        .phys (truncate3 obj.mass) (vec_truncate obj.linearVelocity)
          (vec_truncate obj.angularVelocity)
      else .notApplicable
    game := obj.props.map (fun kv => (kv.1, game_prop_val kv.2))
    materials :=
      match obj.meshes with
      | m :: _ => m
      | [] => ["Not applicable"] }

/-- The outbound message variants the server constructs. -/
inductive OutMsg where
  | objects (data : List String)
  | object_properties (data : ObjectSnapshot)
  | update_success
  | visibility_updated (object : String) (visible : Bool)
  | game_speed_updated (speed : String)
  | mouse_visibility_updated (visible : Bool)
  | game_restarted
  | game_ended
  | game_info (fps time_scale : ℚ) (mouse_visible : Bool)
  | error (message : String)
  deriving DecidableEq, Repr

/-- The f-string `f"Object '{name}' not found"`. -/
def not_found_msg (name : String) : String :=
  "Object '" ++ name ++ "' not found"

/-- `send_object_properties(websocket, object_name)` (lines 147-216): the
message it sends on the requester's channel.  The snapshot construction is
total in this embedding, so the surrounding `try`/`except` never fires. -/
def send_object_properties (scene : Scene) (object_name : String) : List OutMsg :=
  match scene_get scene object_name with
  | some obj => [.object_properties (build_snapshot obj)]
  | none => [.error (not_found_msg object_name)]

/-- The process-wide state shared by all connection tasks and the broadcast
task: the module globals of `server3.py` plus the live scene and the engine
state the handlers read/write (`bge.logic.setTimeScale`,
`bge.logic.getAverageFrameRate`). -/
structure ServerState where
  clients : List String
  selected_object : Option String
  mouse_visible : Bool
  time_scale : ℚ
  fps : ℚ
  scene : Scene
  deriving DecidableEq, Repr

/-- The mutation `obj.visible = not obj.visible`. -/
def flip_visible (ob : GameObject) : GameObject :=
  { ob with visible := !ob.visible }

/-- `toggle_object_visibility(websocket, object_name)` (lines 85-92): flip
the object's visibility and report the new value, or answer an error when
the object is missing. -/
def toggle_object_visibility (st : ServerState) (object_name : String) :
    List OutMsg × ServerState :=
  match scene_get st.scene object_name with
  | some obj =>
      let scene2 := scene_update_first st.scene object_name flip_visible
      ([.visibility_updated object_name (!obj.visible)], { st with scene := scene2 })
  | none => ([.error (not_found_msg object_name)], st)

/-- The body of `update_object_property`'s `try` block (lines 222-248):
either the updated scene or the exception text the block raises.  `obj` is
the object `scene.objects.get(data['object'])` returned. -/
def update_body (scene : Scene) (obj : GameObject) (o p v : String)
    (ax : Option String) : Except String Scene :=
  if p = "position" then
    match pyFloatE v with
    | .error e => .error e
    | .ok q =>
      match vec_setattr obj.worldPosition (ax.getD "x") q with
      | .error e => .error e
      | .ok pos =>
          .ok (scene_update_first scene o (fun ob => { ob with worldPosition := pos }))
  else if p = "rotation" then
    match str_index_xyz (ax.getD "x") with
    | .error e => .error e
    | .ok i =>
      match pyFloatE v with
      | .error e => .error e
      | .ok q =>
          .ok (scene_update_first scene o (fun ob =>
            { ob with worldOrientationEuler :=
                euler_set obj.worldOrientationEuler i (radians q) }))
  else if p = "scale" then
    match pyFloatE v with
    | .error e => .error e
    | .ok q =>
      match vec_setattr obj.worldScale (ax.getD "x") q with
      | .error e => .error e
      | .ok sc =>
          .ok (scene_update_first scene o (fun ob => { ob with worldScale := sc }))
  else
    match prop_get obj.props p with
    | none => .error ("KeyError: " ++ p)
    | some stored =>
      if isinstIntFloat stored then
        match pyFloatE v with
        | .error e => .error e
        | .ok q =>
            .ok (scene_update_first scene o (fun ob =>
              { ob with props := prop_set ob.props p (.float q) }))
      else if isinstBool stored then
        let b := (["true", "1", "yes"] : List String).contains v.toLower
        .ok (scene_update_first scene o (fun ob =>
          { ob with props := prop_set ob.props p (.bool b) }))
      else
        .ok (scene_update_first scene o (fun ob =>
          { ob with props := prop_set ob.props p (.str v) }))

/-- `update_object_property(websocket, data)` (lines 218-253): look the
object up, run the `try` block, convert any exception it raises into an
`error` response; a missing object is answered with a not-found `error`. -/
def update_object_property (st : ServerState) (o p v : String)
    (ax : Option String) : List OutMsg × ServerState :=
  match scene_get st.scene o with
  | some obj =>
    match update_body st.scene obj o p v ax with
    | .ok scene2 => ([.update_success], { st with scene := scene2 })
    | .error e => ([.error e], st)
  | none => ([.error (not_found_msg o)], st)

/-- The inbound message variants, keyed by the `type` field; `unknown`
stands for any other tag (which falls through every `elif` unanswered). -/
inductive InMsg where
  | get_objects
  | get_object_properties (name : String)
  | update_object_property (object property value : String) (axis : Option String)
  | toggle_visibility (object : String)
  | get_game_info
  | set_game_speed (speed : String)
  | toggle_physics_debug
  | toggle_mouse
  | restart_game
  | end_game
  | unknown (ty : String)
  deriving DecidableEq, Repr

/-- One dispatch step of `handle_client`'s `elif` chain (lines 58-78):
the messages sent on the requester's channel and the successor state, or
the exception the dispatch raises (which the loop does not catch). -/
def dispatch (st : ServerState) (m : InMsg) :
    Except String (List OutMsg × ServerState) :=
  match m with
  | .get_objects => .ok ([.objects (st.scene.map (fun o => o.name))], st)
  | .get_object_properties name =>
      .ok (send_object_properties st.scene name,
           { st with selected_object := some name })
  | .update_object_property o p v ax => .ok (update_object_property st o p v ax)
  | .toggle_visibility o => .ok (toggle_object_visibility st o)
  | .get_game_info => .ok ([.game_info st.fps st.time_scale st.mouse_visible], st)
  | .set_game_speed s =>
      match pyFloatE s with
      | .ok q => .ok ([.game_speed_updated s], { st with time_scale := q })
      | .error e => .error e
  | .toggle_physics_debug =>
      .ok ([.error "Physics debug visualization is not available in this version of UPBGE"], st)
  | .toggle_mouse =>
      .ok ([.mouse_visibility_updated (!st.mouse_visible)],
           { st with mouse_visible := !st.mouse_visible })
  | .restart_game => .ok ([.game_restarted], st)
  | .end_game => .ok ([.game_ended], st)
  | .unknown _ => .ok ([], st)

/-- One frame received on a connection: either a JSON object that decodes to
an `InMsg`, or a frame on which `json.loads` raises. -/
inductive InItem where
  | ok (m : InMsg)
  | decodeFailure
  deriving DecidableEq, Repr

/-- How the connection's frame stream ends: the `async for` finishing
normally, or the receive raising `ConnectionClosedError`. -/
inductive ConnEnd where
  | normalClose
  | abruptClose
  deriving DecidableEq, Repr

/-- Outcome of the `async for` message loop: the messages sent, the state
reached, and the exception (if any) that escaped the loop body. -/
structure LoopResult where
  sends : List OutMsg
  state : ServerState
  exc : Option String
  deriving DecidableEq, Repr

/-- The `async for message in websocket` loop of `handle_client`
(lines 56-78).  A decode failure or a dispatch exception aborts the loop
and carries the exception out; an abrupt close surfaces as
`ConnectionClosedError`. -/
def run_loop : ServerState → List InItem → ConnEnd → LoopResult
  | st, [], .normalClose => ⟨[], st, none⟩
  | st, [], .abruptClose => ⟨[], st, some "ConnectionClosedError"⟩
  | st, .decodeFailure :: _, _ => ⟨[], st, some "JSONDecodeError"⟩
  | st, .ok m :: rest, e =>
    match dispatch st m with
    | .ok (msgs, st2) =>
        let r := run_loop st2 rest e
        ⟨msgs ++ r.sends, r.state, r.exc⟩
    | .error exc => ⟨[], st, some exc⟩

/-- Python `set.add`: insert if absent. -/
def pySetAdd (l : List String) (c : String) : List String :=
  if c ∈ l then l else l ++ [c]

/-- Python `set.remove` (the `clients.remove(websocket)` of line 82):
remove the element, or raise `KeyError` when it is absent.  (`set.discard`
would be the no-op-on-absent variant; the source does not use it.) -/
def pySetRemove (l : List String) (c : String) : Except String (List String) :=
  if c ∈ l then .ok (l.erase c) else .error ("KeyError: " ++ c)

/-- Outcome of one whole `handle_client` task: messages sent on this
connection, the final shared state, and the exception (if any) that
propagated beyond the handler. -/
structure ConnOutcome where
  sends : List OutMsg
  final_state : ServerState
  propagated_exc : Option String
  deriving DecidableEq, Repr

/-- `handle_client(websocket, path)` (lines 52-82): register the client,
run the message loop, catch exactly `ConnectionClosedError`, and in the
`finally` block call `clients.remove` — whose own `KeyError`, were it to
fire, would replace the in-flight exception. -/
def handle_client (st : ServerState) (c : String) (items : List InItem)
    (e : ConnEnd) : ConnOutcome :=
  let st1 := { st with clients := pySetAdd st.clients c }
  let r := run_loop st1 items e
  let exc := if r.exc = some "ConnectionClosedError" then none else r.exc
  match pySetRemove r.state.clients c with
  | .ok cs => ⟨r.sends, { r.state with clients := cs }, exc⟩
  | .error e2 => ⟨r.sends, r.state, some e2⟩

/-- A client channel as the broadcast loop sees it: an identifier plus
whether `client.send(...)` raises on it (a closed/broken connection). -/
structure BClient where
  id : String
  send_fails : Bool
  deriving DecidableEq, Repr

/-- `await asyncio.gather(*[client.send(msg) for client in clients])`
without `return_exceptions`: every send coroutine runs (siblings of a
failing child are not cancelled), so each non-failing client is delivered
the message, and the first exception is re-raised by the `await`. -/
def gather_send (cs : List BClient) (msg : OutMsg) :
    List (String × OutMsg) × Option String :=
  ((cs.filter (fun c => !c.send_fails)).map (fun c => (c.id, msg)),
   (cs.find? (fun c => c.send_fails)).map (fun _ => "ConnectionClosedError"))

/-- One iteration of `broadcast_data`'s `while True` body (lines 255-269,
the later definition, which overrides the earlier one): when clients exist,
fan the object list out, then — if a selection is set and the first gather
did not raise — fan out `send_object_properties` for the selected name.
Returns the deliveries made and the exception (if any) that the body
raises. -/
def broadcast_tick (scene : Scene) (sel : Option String) (cs : List BClient) :
    List (String × OutMsg) × Option String :=
  if cs.isEmpty then ([], none)
  else
    let r1 := gather_send cs (.objects (scene.map (fun o => o.name)))
    match r1.2 with
    | some e => (r1.1, some e)
    | none =>
      match sel with
      | none => (r1.1, none)
      | some name =>
        match send_object_properties scene name with
        | [] => (r1.1, none)
        | m2 :: _ =>
          let r2 := gather_send cs m2
          (r1.1 ++ r2.1, r2.2)

/-- `broadcast_data` run for a given number of ticks: the loop has no
`try`/`except`, so an exception raised by a tick propagates out of the
coroutine and no further tick runs. -/
def broadcast_loop : ℕ → Scene → Option String → List BClient →
    List (String × OutMsg) × Option String
  | 0, _, _, _ => ([], none)
  | n + 1, scene, sel, cs =>
    let r := broadcast_tick scene sel cs
    match r.2 with
    | some exc => (r.1, some exc)
    | none =>
      let r2 := broadcast_loop n scene sel cs
      (r.1 ++ r2.1, r2.2)

/-- A concrete scene object used to evaluate the embedding: a cube with a
boolean game property `active`. -/
def demo_cube : GameObject :=
  { name := "Cube"
    worldPosition := ⟨0, 0, 0⟩
    worldOrientationEuler := ⟨0, 0, 0⟩
    worldScale := ⟨1, 1, 1⟩
    visible := true
    mass := 1
    linearVelocity := ⟨0, 0, 0⟩
    angularVelocity := ⟨0, 0, 0⟩
    physicsId := false
    props := [("active", PyVal.bool true)]
    meshes := [] }

/-- A one-object demo scene. -/
def demo_scene : Scene := [demo_cube]

/-- A demo server state over `demo_scene` with no connected clients. -/
def demo_state : ServerState :=
  { clients := []
    selected_object := none
    mouse_visible := true
    time_scale := 1
    fps := 60
    scene := demo_scene }

/-- Three broadcast clients of which the middle one ("b") has a broken
channel. -/
def demo_bclients : List BClient := [⟨"a", false⟩, ⟨"b", true⟩, ⟨"c", false⟩]

/-- Rounding an integer-valued rational is the identity. -/
theorem roundHalfEven_intCast (n : ℤ) : roundHalfEven (n : ℚ) = n := by
  norm_num [roundHalfEven]

/-- `pyRound` is idempotent: re-rounding an already rounded value changes
nothing. -/
theorem pyRound_idem (q : ℚ) (d : ℕ) : pyRound (pyRound q d) d = pyRound q d := by
  have h10 : (10 : ℚ) ^ d ≠ 0 := pow_ne_zero d (by norm_num)
  unfold pyRound
  rw [div_mul_cancel₀ _ h10, roundHalfEven_intCast]

mutual
/-- `truncate` is idempotent on every value. -/
theorem truncate_idem : ∀ (v : TVal) (d : ℕ), truncate (truncate v d) d = truncate v d
  | .float q, d => by simp [truncate, pyRound_idem]
  | .int _, _ => rfl
  | .bool _, _ => rfl
  | .str _, _ => rfl
  | .vec x y z, d => by simp [truncate, truncateList, pyRound_idem]
  | .list xs, d => by simp [truncate, truncateList_idem xs d]

/-- Element-wise `truncate` over a list is idempotent. -/
theorem truncateList_idem :
    ∀ (vs : TValList) (d : ℕ), truncateList (truncateList vs d) d = truncateList vs d
  | .nil, _ => rfl
  | .cons v vs, d => by
      simp [truncateList, truncate_idem v d, truncateList_idem vs d]
end

/-- Element-wise `truncate` preserves the length of a list. -/
theorem truncateList_length :
    ∀ (vs : TValList) (d : ℕ), (truncateList vs d).length = vs.length
  | .nil, _ => rfl
  | .cons v vs, d => by
      simp [truncateList, TValList.length, truncateList_length vs d]

/-- C5: the numeric normalizer `truncate` is idempotent and
shape-preserving: a float is rounded to the requested number of decimal
digits; a list is truncated element-wise, keeping its length; a 3-component
vector is truncated element-wise into its three components (the sequence
shape it has on the wire); ints, bools and strings pass through unchanged.
`truncate` is a total pure function, so it has no error conditions. -/
theorem C5_truncate_idempotent_shape_preserving :
    (∀ (v : TVal) (d : ℕ), truncate (truncate v d) d = truncate v d)
    ∧ (∀ (q : ℚ) (d : ℕ), truncate (.float q) d = .float (pyRound q d))
    ∧ (∀ (xs : TValList) (d : ℕ), truncate (.list xs) d = .list (truncateList xs d))
    ∧ (∀ (xs : TValList) (d : ℕ), (truncateList xs d).length = xs.length)
    ∧ (∀ (x y z : ℚ) (d : ℕ), truncate (.vec x y z) d
        = .list (.cons (.float (pyRound x d))
            (.cons (.float (pyRound y d)) (.cons (.float (pyRound z d)) .nil))))
    ∧ (∀ (n : ℤ) (d : ℕ), truncate (.int n) d = .int n)
    ∧ (∀ (b : Bool) (d : ℕ), truncate (.bool b) d = .bool b)
    ∧ (∀ (s : String) (d : ℕ), truncate (.str s) d = .str s) :=
  ⟨truncate_idem, fun _ _ => rfl, fun _ _ => rfl, truncateList_length,
   fun _ _ _ _ => rfl, fun _ _ => rfl, fun _ _ => rfl, fun _ _ => rfl⟩

/-- C4: evidence of the coercion bug in `update_object_property`.  In Python,
`bool` is a subclass of `int`, so `isinstance(obj[p], (int, float))` is true
for a stored boolean and the `elif isinstance(obj[p], bool)` branch is
unreachable.  On an object whose game property `active` stores `True`:
raw value `"yes"` is fed to `float`, which raises, so the request is
answered with an `error` and nothing is stored (the documented true-literal
set `{"true","1","yes"}` is never consulted); raw value `"1"` is stored as
the float `1.0`, not as a boolean. -/
theorem C4_bool_property_takes_float_branch :
    isinstIntFloat (.bool true) = true
    ∧ update_object_property demo_state "Cube" "active" "yes" none
        = ([.error "could not convert string to float: 'yes'"], demo_state)
    ∧ update_object_property demo_state "Cube" "active" "1" none
        = ([.update_success],
           { demo_state with
               scene := [{ demo_cube with props := [("active", PyVal.float 1)] }] }) := by
  refine ⟨rfl, rfl, ?_⟩
  simp +decide [update_object_property, update_body, demo_state, demo_scene, demo_cube,
    scene_get, prop_get, isinstIntFloat, pyFloatE, pyFloatOfString, digitsToNat,
    scene_update_first, prop_set]

/-- C8 counterexample: `set_game_speed` is not total over input strings —
on the speed string `"abc"`, `float` raises before any response is sent, so
no `game_speed_updated` echo happens (and the exception escapes the
dispatch). -/
theorem C8_counterexample_unconvertible_speed_raises :
    dispatch demo_state (.set_game_speed "abc")
      = .error "could not convert string to float: 'abc'" := rfl

/-- C8 (amended): for every speed string whose float conversion succeeds,
`set_game_speed` applies the converted value to the engine time scale and
echoes the original input string back literally (not the converted or
recomputed value). -/
theorem C8_set_game_speed_applies_and_echoes (st : ServerState) (s : String) (q : ℚ)
    (hq : pyFloatOfString s = some q) :
    dispatch st (.set_game_speed s)
      = .ok ([.game_speed_updated s], { st with time_scale := q }) := by
  simp [dispatch, pyFloatE, hq]

/-- C8 witness: the amended statement at speed `"2.0"`. -/
theorem C8_witness :
    pyFloatOfString "2.0" = some 2
    ∧ dispatch demo_state (.set_game_speed "2.0")
        = .ok ([.game_speed_updated "2.0"], { demo_state with time_scale := 2 }) :=
  ⟨by simp +decide [pyFloatOfString, digitsToNat],
   C8_set_game_speed_applies_and_echoes demo_state "2.0" 2
     (by simp +decide [pyFloatOfString, digitsToNat])⟩

/-- C10: when the `axis` field is omitted from an `update_object_property`
request, `data.get('axis', 'x')` makes every branch behave exactly as if
axis `"x"` had been supplied. -/
theorem C10_axis_defaults_to_x (st : ServerState) (o p v : String) :
    update_object_property st o p v none = update_object_property st o p v (some "x") := by
  cases hs : scene_get st.scene o with
  | none => simp [update_object_property, hs]
  | some obj =>
    have hb : update_body st.scene obj o p v none
        = update_body st.scene obj o p v (some "x") := by
      simp only [update_body, Option.getD_none, Option.getD_some]
    simp [update_object_property, hs, hb]

/-- C6: every request naming an object absent from the scene is answered
with an `error` message that contains the object name; the scene is left
untouched, and the only registry change is that `get_object_properties`
records the requested (nonexistent) name as the selection. -/
theorem C6_missing_object_error_paths (st : ServerState) (name p v : String)
    (ax : Option String) (h : scene_get st.scene name = none) :
    dispatch st (.get_object_properties name)
      = .ok ([.error (not_found_msg name)], { st with selected_object := some name })
    ∧ dispatch st (.update_object_property name p v ax)
      = .ok ([.error (not_found_msg name)], st)
    ∧ dispatch st (.toggle_visibility name)
      = .ok ([.error (not_found_msg name)], st)
    ∧ (∃ a b, not_found_msg name = a ++ name ++ b) := by
  refine ⟨?_, ?_, ?_, ⟨"Object '", "' not found", rfl⟩⟩ <;>
    simp [dispatch, send_object_properties, update_object_property,
      toggle_object_visibility, h]

/-- C6 witness: the three error paths evaluated on the demo scene, which has
no object called "Ghost". -/
theorem C6_missing_object_error_paths_witness :
    scene_get demo_state.scene "Ghost" = none
    ∧ (dispatch demo_state (.get_object_properties "Ghost")
        = .ok ([.error (not_found_msg "Ghost")],
               { demo_state with selected_object := some "Ghost" })
      ∧ dispatch demo_state (.update_object_property "Ghost" "p" "v" none)
        = .ok ([.error (not_found_msg "Ghost")], demo_state)
      ∧ dispatch demo_state (.toggle_visibility "Ghost")
        = .ok ([.error (not_found_msg "Ghost")], demo_state)
      ∧ (∃ a b, not_found_msg "Ghost" = a ++ "Ghost" ++ b)) :=
  ⟨rfl, C6_missing_object_error_paths demo_state "Ghost" "p" "v" none rfl⟩

/-- Looking up the updated name after `scene_update_first` sees the update
applied to the found object, provided the update preserves the name. -/
theorem scene_get_update_first (f : GameObject → GameObject)
    (hf : ∀ o, (f o).name = o.name) :
    ∀ (s : Scene) (n : String),
      scene_get (scene_update_first s n f) n = (scene_get s n).map f
  | [], _ => rfl
  | o :: rest, n => by
    cases ho : (o.name == n) with
    | true =>
      have hfo : ((f o).name == n) = true := by rw [hf o]; exact ho
      simp [scene_update_first, scene_get, List.find?, ho, hfo]
    | false =>
      have ih := scene_get_update_first f hf rest n
      simp only [scene_get] at ih
      simp [scene_update_first, scene_get, List.find?, ho, ih]

/-- Applying a name-preserving update and then an inverse update through
`scene_update_first` restores the scene. -/
theorem scene_update_first_twice (f g : GameObject → GameObject)
    (hf : ∀ o, (f o).name = o.name) (hgf : ∀ o, g (f o) = o) :
    ∀ (s : Scene) (n : String),
      scene_update_first (scene_update_first s n f) n g = s
  | [], _ => rfl
  | o :: rest, n => by
    cases ho : (o.name == n) with
    | true =>
      have hfo : ((f o).name == n) = true := by rw [hf o]; exact ho
      simp [scene_update_first, ho, hfo, hgf o]
    | false =>
      simp [scene_update_first, ho, scene_update_first_twice f g hf hgf rest n]

/-- `flip_visible` twice is the identity. -/
theorem flip_visible_flip_visible (o : GameObject) :
    flip_visible (flip_visible o) = o := by
  simp [flip_visible]

/-- C7: toggling the visibility of an existing object negates its stored
visibility and answers `visibility_updated` carrying exactly the new
boolean; toggling a second time reports the original value and restores the
original scene (round-trip). -/
theorem C7_toggle_visibility_roundtrip (st : ServerState) (name : String)
    (obj : GameObject) (h : scene_get st.scene name = some obj) :
    ∃ st1 : ServerState,
      toggle_object_visibility st name
        = ([.visibility_updated name (!obj.visible)], st1)
      ∧ scene_get st1.scene name = some { obj with visible := !obj.visible }
      ∧ ∃ st2 : ServerState,
          toggle_object_visibility st1 name
            = ([.visibility_updated name obj.visible], st2)
          ∧ st2.scene = st.scene := by
  have hget : scene_get (scene_update_first st.scene name flip_visible) name
      = some (flip_visible obj) := by
    rw [scene_get_update_first flip_visible (fun _ => rfl) st.scene name, h]
    rfl
  refine ⟨{ st with scene := scene_update_first st.scene name flip_visible },
    by simp [toggle_object_visibility, h], ?_, ?_⟩
  · rw [hget]; rfl
  · refine ⟨{ st with scene := scene_update_first (scene_update_first st.scene name flip_visible) name flip_visible }, ?_, ?_⟩
    · show toggle_object_visibility _ name = _
      rw [toggle_object_visibility]
      simp only [hget]
      have hvis : (!(flip_visible obj).visible) = obj.visible := by
        simp [flip_visible]
      rw [hvis]
    · show (scene_update_first (scene_update_first st.scene name flip_visible)
          name flip_visible) = st.scene
      exact scene_update_first_twice flip_visible flip_visible (fun _ => rfl)
        flip_visible_flip_visible st.scene name

/-- C7 witness: the round-trip on the demo scene's "Cube". -/
theorem C7_toggle_visibility_roundtrip_witness :
    scene_get demo_state.scene "Cube" = some demo_cube
    ∧ (∃ st1 : ServerState,
        toggle_object_visibility demo_state "Cube"
          = ([.visibility_updated "Cube" (!demo_cube.visible)], st1)
        ∧ scene_get st1.scene "Cube" = some { demo_cube with visible := !demo_cube.visible }
        ∧ ∃ st2 : ServerState,
            toggle_object_visibility st1 "Cube"
              = ([.visibility_updated "Cube" demo_cube.visible], st2)
            ∧ st2.scene = demo_state.scene) :=
  ⟨rfl, C7_toggle_visibility_roundtrip demo_state "Cube" demo_cube rfl⟩

/-- `update_object_property` never touches the client set. -/
theorem update_object_property_clients (st : ServerState) (o p v : String)
    (ax : Option String) :
    (update_object_property st o p v ax).2.clients = st.clients := by
  cases hs : scene_get st.scene o with
  | none => simp [update_object_property, hs]
  | some obj =>
    cases hb : update_body st.scene obj o p v ax with
    | ok s2 => simp [update_object_property, hs, hb]
    | error e => simp [update_object_property, hs, hb]

/-- `toggle_object_visibility` never touches the client set. -/
theorem toggle_object_visibility_clients (st : ServerState) (o : String) :
    (toggle_object_visibility st o).2.clients = st.clients := by
  cases hs : scene_get st.scene o with
  | none => simp [toggle_object_visibility, hs]
  | some obj => simp [toggle_object_visibility, hs]

/-- No handler of the dispatch table registers or unregisters clients: the
client set is owned by the connection lifecycle alone. -/
theorem dispatch_clients (st : ServerState) (m : InMsg) (msgs : List OutMsg)
    (st2 : ServerState) (h : dispatch st m = .ok (msgs, st2)) :
    st2.clients = st.clients := by
  cases m with
  | get_objects =>
      simp only [dispatch, Except.ok.injEq, Prod.mk.injEq] at h
      rw [← h.2]
  | get_object_properties name =>
      simp only [dispatch, Except.ok.injEq, Prod.mk.injEq] at h
      rw [← h.2]
  | update_object_property o p v ax =>
      simp only [dispatch, Except.ok.injEq] at h
      have h2 : (update_object_property st o p v ax).2 = st2 := by rw [h]
      rw [← h2]
      exact update_object_property_clients st o p v ax
  | toggle_visibility o =>
      simp only [dispatch, Except.ok.injEq] at h
      have h2 : (toggle_object_visibility st o).2 = st2 := by rw [h]
      rw [← h2]
      exact toggle_object_visibility_clients st o
  | get_game_info =>
      simp only [dispatch, Except.ok.injEq, Prod.mk.injEq] at h
      rw [← h.2]
  | set_game_speed s =>
      cases hq : pyFloatE s with
      | ok q =>
          simp only [dispatch, hq, Except.ok.injEq, Prod.mk.injEq] at h
          rw [← h.2]
      | error e => simp [dispatch, hq] at h
  | toggle_physics_debug =>
      simp only [dispatch, Except.ok.injEq, Prod.mk.injEq] at h
      rw [← h.2]
  | toggle_mouse =>
      simp only [dispatch, Except.ok.injEq, Prod.mk.injEq] at h
      rw [← h.2]
  | restart_game =>
      simp only [dispatch, Except.ok.injEq, Prod.mk.injEq] at h
      rw [← h.2]
  | end_game =>
      simp only [dispatch, Except.ok.injEq, Prod.mk.injEq] at h
      rw [← h.2]
  | unknown ty =>
      simp only [dispatch, Except.ok.injEq, Prod.mk.injEq] at h
      rw [← h.2]

/-- The message loop never changes the client set either, whatever messages
arrive and however the loop ends. -/
theorem run_loop_clients :
    ∀ (st : ServerState) (items : List InItem) (e : ConnEnd),
      (run_loop st items e).state.clients = st.clients
  | _, [], .normalClose => rfl
  | _, [], .abruptClose => rfl
  | _, .decodeFailure :: _, _ => rfl
  | st, .ok m :: rest, e => by
    cases hd : dispatch st m with
    | ok pr =>
        obtain ⟨msgs, st2⟩ := pr
        have ih := run_loop_clients st2 rest e
        simp [run_loop, hd, ih, dispatch_clients st m msgs st2 hd]
    | error exc => simp [run_loop, hd]

/-- A client just added by `set.add` is a member. -/
theorem pySetAdd_mem (l : List String) (c : String) : c ∈ pySetAdd l c := by
  unfold pySetAdd
  split
  · assumption
  · simp

/-- C1 counterexample: the registry's unregister step is Python's
`set.remove`, which raises `KeyError` on an absent element — removing an
already-absent client is an error, not a no-op. -/
theorem C1_counterexample_unregister_absent_raises :
    pySetRemove [] "client-a" = Except.error "KeyError: client-a" := rfl

/-- C1 (amended): on connection teardown the `finally` unregister step
always runs — for a normal close, an abrupt close, and a fault raised in
the message loop alike — and it completes without fault there, because the
client registered on entry is still in the set (no handler removes it).
The final client set is exactly the entry set with this client erased, and
the propagated exception is exactly the loop's own (a raised
`ConnectionClosedError` having been caught), never a `KeyError` from the
unregister step itself. -/
theorem C1_handle_client_always_unregisters (st : ServerState) (c : String)
    (items : List InItem) (e : ConnEnd) :
    (∃ cs, pySetRemove (run_loop { st with clients := pySetAdd st.clients c } items e).state.clients c
        = .ok cs)
    ∧ (handle_client st c items e).final_state.clients
        = (pySetAdd st.clients c).erase c
    ∧ (handle_client st c items e).propagated_exc
        = (if (run_loop { st with clients := pySetAdd st.clients c } items e).exc
              = some "ConnectionClosedError"
           then none
           else (run_loop { st with clients := pySetAdd st.clients c } items e).exc) := by
  have hcl : (run_loop { st with clients := pySetAdd st.clients c } items e).state.clients
      = pySetAdd st.clients c :=
    run_loop_clients { st with clients := pySetAdd st.clients c } items e
  have hmem : c ∈ (run_loop { st with clients := pySetAdd st.clients c } items e).state.clients := by
    rw [hcl]; exact pySetAdd_mem st.clients c
  have hrem : pySetRemove (run_loop { st with clients := pySetAdd st.clients c } items e).state.clients c
      = .ok ((run_loop { st with clients := pySetAdd st.clients c } items e).state.clients.erase c) := by
    unfold pySetRemove
    rw [if_pos hmem]
  have hrem2 : pySetRemove (pySetAdd st.clients c) c
      = .ok ((pySetAdd st.clients c).erase c) := by
    unfold pySetRemove
    rw [if_pos (pySetAdd_mem st.clients c)]
  refine ⟨⟨_, hrem⟩, ?_, ?_⟩ <;> simp [handle_client, hcl, hrem2]

/-- C2 counterexample: a fault raised while dispatching a message is not
caught per-message.  A `set_game_speed` frame whose speed does not convert
raises `ValueError` out of the dispatch: no outbound `error` message is
produced, the following `get_objects` frame is never processed (the request
loop is terminated), and the exception propagates beyond the handler; a
frame on which `json.loads` fails behaves the same way. -/
theorem C2_counterexample_dispatch_fault_kills_loop :
    handle_client demo_state "c1" [.ok (.set_game_speed "abc"), .ok .get_objects] .normalClose
      = ⟨[], demo_state, some "could not convert string to float: 'abc'"⟩
    ∧ handle_client demo_state "c1" [.decodeFailure] .normalClose
      = ⟨[], demo_state, some "JSONDecodeError"⟩ :=
  ⟨rfl, rfl⟩

/-- C2 (amended): the per-message fault-to-`error` conversion exists only
inside `update_object_property` (whose `try` block's exceptions are answered
as `error` messages with the state unchanged) and inside the snapshot
construction of `get_object_properties`; those two dispatches never raise.
Faults raised elsewhere in dispatch are not converted (see the
counterexample). -/
theorem C2_update_and_snapshot_faults_convert_to_error
    (st : ServerState) (obj : GameObject) (o p v : String) (ax : Option String)
    (e : String) (hobj : scene_get st.scene o = some obj)
    (herr : update_body st.scene obj o p v ax = .error e) :
    dispatch st (.update_object_property o p v ax) = .ok ([.error e], st)
    ∧ (∀ (st' : ServerState) (o' p' v' : String) (ax' : Option String),
        ∃ r, dispatch st' (.update_object_property o' p' v' ax') = .ok r)
    ∧ (∀ (st' : ServerState) (name : String),
        ∃ r, dispatch st' (.get_object_properties name) = .ok r) := by
  refine ⟨?_, fun st' o' p' v' ax' => ⟨_, rfl⟩, fun st' name => ⟨_, rfl⟩⟩
  simp [dispatch, update_object_property, hobj, herr]

/-- C2 witness: the amended statement at the demo scene's boolean property
`active` and the unconvertible raw value `"yes"`. -/
theorem C2_update_and_snapshot_faults_convert_to_error_witness :
    scene_get demo_state.scene "Cube" = some demo_cube
    ∧ update_body demo_state.scene demo_cube "Cube" "active" "yes" none
        = .error "could not convert string to float: 'yes'"
    ∧ (dispatch demo_state (.update_object_property "Cube" "active" "yes" none)
        = .ok ([.error "could not convert string to float: 'yes'"], demo_state)
      ∧ (∀ (st' : ServerState) (o' p' v' : String) (ax' : Option String),
          ∃ r, dispatch st' (.update_object_property o' p' v' ax') = .ok r)
      ∧ (∀ (st' : ServerState) (name : String),
          ∃ r, dispatch st' (.get_object_properties name) = .ok r)) :=
  ⟨rfl, rfl,
   C2_update_and_snapshot_faults_convert_to_error demo_state demo_cube
     "Cube" "active" "yes" none _ rfl rfl⟩

/-- A list containing an element satisfying `p` has a `find?` result. -/
theorem find_some_of_mem {α : Type} (p : α → Bool) :
    ∀ (l : List α) (x : α), x ∈ l → p x = true → ∃ y, l.find? p = some y
  | [], x, hx, _ => absurd hx (List.not_mem_nil x)
  | a :: t, x, hx, hp => by
    cases hpa : p a with
    | true => exact ⟨a, by simp [List.find?, hpa]⟩
    | false =>
      rcases List.mem_cons.mp hx with rfl | hxt
      · rw [hpa] at hp
        cases hp
      · obtain ⟨y, hy⟩ := find_some_of_mem p t x hxt hp
        exact ⟨y, by simp [List.find?, hpa, hy]⟩

/-- C3 counterexample: with three registered clients of which "b" has a
broken channel, and "Cube" selected, two requested broadcast ticks deliver
only the `objects` message, and only to "a" and "c": the failed send
re-raises out of the first `asyncio.gather`, so neither healthy client
receives that tick's `object_properties` message, and the exception
propagates out of `broadcast_data` — no second tick runs at all. -/
theorem C3_counterexample_send_failure_aborts_tick_and_loop :
    broadcast_loop 2 demo_scene (some "Cube") demo_bclients
      = ([("a", .objects ["Cube"]), ("c", .objects ["Cube"])],
         some "ConnectionClosedError") := rfl

/-- C3 (amended): during a tick, `asyncio.gather` schedules every client's
send and a failure on one channel does not cancel its siblings, so every
other registered client still receives the message of that same fan-out;
but the failure re-raises from the `await`: the tick body raises (skipping
any remaining fan-out of the tick, such as the `object_properties`
broadcast), and since `broadcast_data` has no exception handling, the
broadcast loop terminates instead of continuing to subsequent ticks. -/
theorem C3_gather_partial_delivery_then_halt
    (scene : Scene) (sel : Option String) (cs : List BClient) (c : BClient)
    (hc : c ∈ cs) (hok : c.send_fails = false)
    (hfail : ∃ d ∈ cs, d.send_fails = true) :
    ((c.id, OutMsg.objects (scene.map (fun o => o.name)))
        ∈ (broadcast_tick scene sel cs).1)
    ∧ (broadcast_tick scene sel cs).2 = some "ConnectionClosedError"
    ∧ (∀ n, broadcast_loop (n + 1) scene sel cs = broadcast_tick scene sel cs) := by
  obtain ⟨d, hd, hdf⟩ := hfail
  obtain ⟨y, hy⟩ := find_some_of_mem (fun c => c.send_fails) cs d hd hdf
  have hne : cs.isEmpty = false := by
    cases cs
    · cases hc
    · rfl
  have htick : broadcast_tick scene sel cs
      = ((cs.filter (fun c => !c.send_fails)).map
           (fun c => (c.id, OutMsg.objects (scene.map (fun o => o.name)))),
         some "ConnectionClosedError") := by
    simp [broadcast_tick, hne, gather_send, hy]
  refine ⟨?_, by rw [htick], ?_⟩
  · rw [htick]
    exact List.mem_map.mpr ⟨c, List.mem_filter.mpr ⟨hc, by simp [hok]⟩, rfl⟩
  · intro n
    simp only [broadcast_loop]
    rw [htick]

/-- C3 witness: the amended statement for healthy client "a" among the demo
broadcast clients, where "b" is broken. -/
theorem C3_gather_partial_delivery_then_halt_witness :
    (⟨"a", false⟩ : BClient) ∈ demo_bclients
    ∧ (((BClient.mk "a" false).id,
          OutMsg.objects (demo_scene.map (fun o => o.name)))
        ∈ (broadcast_tick demo_scene (some "Cube") demo_bclients).1)
    ∧ (broadcast_tick demo_scene (some "Cube") demo_bclients).2
        = some "ConnectionClosedError"
    ∧ (∀ n, broadcast_loop (n + 1) demo_scene (some "Cube") demo_bclients
        = broadcast_tick demo_scene (some "Cube") demo_bclients) := by
  have h := C3_gather_partial_delivery_then_halt demo_scene (some "Cube")
    demo_bclients ⟨"a", false⟩ (by simp [demo_bclients]) rfl
    ⟨⟨"b", true⟩, by simp [demo_bclients], rfl⟩
  exact ⟨by simp [demo_bclients], h.1, h.2.1, h.2.2⟩

/-- `setattr` on a vector with a well-formed axis name succeeds, sets
exactly the named component, and leaves the other two unchanged. -/
theorem vec_setattr_spec (p : Vec3) (ax : String) (q : ℚ)
    (hax : ax = "x" ∨ ax = "y" ∨ ax = "z") :
    ∃ p2, vec_setattr p ax q = .ok p2
      ∧ vec_getattr p2 ax = some q
      ∧ ∀ b, (b = "x" ∨ b = "y" ∨ b = "z") → b ≠ ax →
          vec_getattr p2 b = vec_getattr p b := by
  rcases hax with rfl | rfl | rfl
  · refine ⟨{ p with x := q }, rfl, rfl, ?_⟩
    rintro b (rfl | rfl | rfl) hb
    · exact absurd rfl hb
    · rfl
    · rfl
  · refine ⟨{ p with y := q }, rfl, rfl, ?_⟩
    rintro b (rfl | rfl | rfl) hb
    · rfl
    · exact absurd rfl hb
    · rfl
  · refine ⟨{ p with z := q }, rfl, rfl, ?_⟩
    rintro b (rfl | rfl | rfl) hb
    · rfl
    · rfl
    · exact absurd rfl hb

/-- `'xyz'.index(axis)` followed by the indexed Euler assignment sets
exactly the named angle and leaves the other two unchanged. -/
theorem euler_update_spec (r : Vec3) (ax : String) (q : ℚ)
    (hax : ax = "x" ∨ ax = "y" ∨ ax = "z") :
    ∃ i, str_index_xyz ax = .ok i
      ∧ vec_getattr (euler_set r i q) ax = some q
      ∧ ∀ b, (b = "x" ∨ b = "y" ∨ b = "z") → b ≠ ax →
          vec_getattr (euler_set r i q) b = vec_getattr r b := by
  rcases hax with rfl | rfl | rfl
  · refine ⟨0, rfl, rfl, ?_⟩
    rintro b (rfl | rfl | rfl) hb
    · exact absurd rfl hb
    · rfl
    · rfl
  · refine ⟨1, rfl, rfl, ?_⟩
    rintro b (rfl | rfl | rfl) hb
    · rfl
    · exact absurd rfl hb
    · rfl
  · refine ⟨2, rfl, rfl, ?_⟩
    rintro b (rfl | rfl | rfl) hb
    · rfl
    · rfl
    · exact absurd rfl hb

/-- `update_object_property` on `position` with an axis: only that axis of
the world position changes. -/
theorem update_position_spec (st : ServerState) (name v ax : String)
    (obj : GameObject) (q : ℚ)
    (hobj : scene_get st.scene name = some obj)
    (hax : ax = "x" ∨ ax = "y" ∨ ax = "z")
    (hq : pyFloatOfString v = some q) :
    ∃ st1 obj1, update_object_property st name "position" v (some ax)
        = ([.update_success], st1)
      ∧ scene_get st1.scene name = some obj1
      ∧ vec_getattr obj1.worldPosition ax = some q
      ∧ (∀ b, (b = "x" ∨ b = "y" ∨ b = "z") → b ≠ ax →
          vec_getattr obj1.worldPosition b = vec_getattr obj.worldPosition b)
      ∧ obj1.worldOrientationEuler = obj.worldOrientationEuler
      ∧ obj1.worldScale = obj.worldScale := by
  obtain ⟨p2, hset, hget2, hpres⟩ := vec_setattr_spec obj.worldPosition ax q hax
  have hbody : update_body st.scene obj name "position" v (some ax)
      = .ok (scene_update_first st.scene name (fun ob => { ob with worldPosition := p2 })) := by
    simp +decide [update_body, pyFloatE, hq, hset]
  have hupd : update_object_property st name "position" v (some ax)
      = ([.update_success],
         { st with scene := scene_update_first st.scene name (fun ob => { ob with worldPosition := p2 }) }) := by
    simp [update_object_property, hobj, hbody]
  have hsget : scene_get (scene_update_first st.scene name (fun ob => { ob with worldPosition := p2 })) name
      = some { obj with worldPosition := p2 } := by
    rw [scene_get_update_first (fun ob => { ob with worldPosition := p2 }) (fun _ => rfl) st.scene name, hobj]
    rfl
  exact ⟨_, { obj with worldPosition := p2 }, hupd, hsget, hget2, hpres, rfl, rfl⟩

/-- `update_object_property` on `rotation` with an axis: the value is read
in degrees and converted to radians, the full Euler triple is rebuilt with
only that angle replaced, and the other two angles are preserved. -/
theorem update_rotation_spec (st : ServerState) (name v ax : String)
    (obj : GameObject) (q : ℚ)
    (hobj : scene_get st.scene name = some obj)
    (hax : ax = "x" ∨ ax = "y" ∨ ax = "z")
    (hq : pyFloatOfString v = some q) :
    ∃ st1 obj1, update_object_property st name "rotation" v (some ax)
        = ([.update_success], st1)
      ∧ scene_get st1.scene name = some obj1
      ∧ vec_getattr obj1.worldOrientationEuler ax = some (radians q)
      ∧ (∀ b, (b = "x" ∨ b = "y" ∨ b = "z") → b ≠ ax →
          vec_getattr obj1.worldOrientationEuler b
            = vec_getattr obj.worldOrientationEuler b)
      ∧ obj1.worldPosition = obj.worldPosition
      ∧ obj1.worldScale = obj.worldScale := by
  obtain ⟨i, hidx, hget2, hpres⟩ :=
    euler_update_spec obj.worldOrientationEuler ax (radians q) hax
  have hbody : update_body st.scene obj name "rotation" v (some ax)
      = .ok (scene_update_first st.scene name (fun ob =>
          { ob with worldOrientationEuler := euler_set obj.worldOrientationEuler i (radians q) })) := by
    simp +decide [update_body, pyFloatE, hq, hidx]
  have hupd : update_object_property st name "rotation" v (some ax)
      = ([.update_success],
         { st with scene := scene_update_first st.scene name (fun ob =>
             { ob with worldOrientationEuler := euler_set obj.worldOrientationEuler i (radians q) }) }) := by
    simp [update_object_property, hobj, hbody]
  have hsget : scene_get (scene_update_first st.scene name (fun ob =>
        { ob with worldOrientationEuler := euler_set obj.worldOrientationEuler i (radians q) })) name
      = some { obj with worldOrientationEuler := euler_set obj.worldOrientationEuler i (radians q) } := by
    rw [scene_get_update_first (fun ob => { ob with worldOrientationEuler := euler_set obj.worldOrientationEuler i (radians q) }) (fun _ => rfl) st.scene name, hobj]
    rfl
  exact ⟨_, { obj with worldOrientationEuler := euler_set obj.worldOrientationEuler i (radians q) },
    hupd, hsget, hget2, hpres, rfl, rfl⟩

/-- `update_object_property` on `scale` with an axis: only that axis of the
world scale changes. -/
theorem update_scale_spec (st : ServerState) (name v ax : String)
    (obj : GameObject) (q : ℚ)
    (hobj : scene_get st.scene name = some obj)
    (hax : ax = "x" ∨ ax = "y" ∨ ax = "z")
    (hq : pyFloatOfString v = some q) :
    ∃ st1 obj1, update_object_property st name "scale" v (some ax)
        = ([.update_success], st1)
      ∧ scene_get st1.scene name = some obj1
      ∧ vec_getattr obj1.worldScale ax = some q
      ∧ (∀ b, (b = "x" ∨ b = "y" ∨ b = "z") → b ≠ ax →
          vec_getattr obj1.worldScale b = vec_getattr obj.worldScale b)
      ∧ obj1.worldPosition = obj.worldPosition
      ∧ obj1.worldOrientationEuler = obj.worldOrientationEuler := by
  obtain ⟨p2, hset, hget2, hpres⟩ := vec_setattr_spec obj.worldScale ax q hax
  have hbody : update_body st.scene obj name "scale" v (some ax)
      = .ok (scene_update_first st.scene name (fun ob => { ob with worldScale := p2 })) := by
    simp +decide [update_body, pyFloatE, hq, hset]
  have hupd : update_object_property st name "scale" v (some ax)
      = ([.update_success],
         { st with scene := scene_update_first st.scene name (fun ob => { ob with worldScale := p2 }) }) := by
    simp [update_object_property, hobj, hbody]
  have hsget : scene_get (scene_update_first st.scene name (fun ob => { ob with worldScale := p2 })) name
      = some { obj with worldScale := p2 } := by
    rw [scene_get_update_first (fun ob => { ob with worldScale := p2 }) (fun _ => rfl) st.scene name, hobj]
    rfl
  exact ⟨_, { obj with worldScale := p2 }, hupd, hsget, hget2, hpres, rfl, rfl⟩

/-- C9: for an existing object, an axis update of `position`, `rotation` or
`scale` succeeds with `update_success` and mutates only the named axis of
the corresponding vector, leaving the other two components — and the other
two transform vectors — unchanged; for `rotation` the input is taken in
degrees and stored as radians, the new orientation being rebuilt from the
full three-angle triple. -/
theorem C9_transform_axis_update_isolated (st : ServerState) (name v ax : String)
    (obj : GameObject) (q : ℚ)
    (hobj : scene_get st.scene name = some obj)
    (hax : ax = "x" ∨ ax = "y" ∨ ax = "z")
    (hq : pyFloatOfString v = some q) :
    (∃ st1 obj1, update_object_property st name "position" v (some ax)
        = ([.update_success], st1)
      ∧ scene_get st1.scene name = some obj1
      ∧ vec_getattr obj1.worldPosition ax = some q
      ∧ (∀ b, (b = "x" ∨ b = "y" ∨ b = "z") → b ≠ ax →
          vec_getattr obj1.worldPosition b = vec_getattr obj.worldPosition b)
      ∧ obj1.worldOrientationEuler = obj.worldOrientationEuler
      ∧ obj1.worldScale = obj.worldScale)
    ∧ (∃ st1 obj1, update_object_property st name "rotation" v (some ax)
        = ([.update_success], st1)
      ∧ scene_get st1.scene name = some obj1
      ∧ vec_getattr obj1.worldOrientationEuler ax = some (radians q)
      ∧ (∀ b, (b = "x" ∨ b = "y" ∨ b = "z") → b ≠ ax →
          vec_getattr obj1.worldOrientationEuler b
            = vec_getattr obj.worldOrientationEuler b)
      ∧ obj1.worldPosition = obj.worldPosition
      ∧ obj1.worldScale = obj.worldScale)
    ∧ (∃ st1 obj1, update_object_property st name "scale" v (some ax)
        = ([.update_success], st1)
      ∧ scene_get st1.scene name = some obj1
      ∧ vec_getattr obj1.worldScale ax = some q
      ∧ (∀ b, (b = "x" ∨ b = "y" ∨ b = "z") → b ≠ ax →
          vec_getattr obj1.worldScale b = vec_getattr obj.worldScale b)
      ∧ obj1.worldPosition = obj.worldPosition
      ∧ obj1.worldOrientationEuler = obj.worldOrientationEuler) :=
  ⟨update_position_spec st name v ax obj q hobj hax hq,
   update_rotation_spec st name v ax obj q hobj hax hq,
   update_scale_spec st name v ax obj q hobj hax hq⟩

/-- C9 witness: updating axis "x" of the demo cube's transforms to `"5.0"`. -/
theorem C9_transform_axis_update_isolated_witness :
    scene_get demo_state.scene "Cube" = some demo_cube
    ∧ pyFloatOfString "5.0" = some 5
    ∧ ((∃ st1 obj1, update_object_property demo_state "Cube" "position" "5.0" (some "x")
          = ([.update_success], st1)
        ∧ scene_get st1.scene "Cube" = some obj1
        ∧ vec_getattr obj1.worldPosition "x" = some 5
        ∧ (∀ b, (b = "x" ∨ b = "y" ∨ b = "z") → b ≠ "x" →
            vec_getattr obj1.worldPosition b = vec_getattr demo_cube.worldPosition b)
        ∧ obj1.worldOrientationEuler = demo_cube.worldOrientationEuler
        ∧ obj1.worldScale = demo_cube.worldScale)
      ∧ (∃ st1 obj1, update_object_property demo_state "Cube" "rotation" "5.0" (some "x")
          = ([.update_success], st1)
        ∧ scene_get st1.scene "Cube" = some obj1
        ∧ vec_getattr obj1.worldOrientationEuler "x" = some (radians 5)
        ∧ (∀ b, (b = "x" ∨ b = "y" ∨ b = "z") → b ≠ "x" →
            vec_getattr obj1.worldOrientationEuler b
              = vec_getattr demo_cube.worldOrientationEuler b)
        ∧ obj1.worldPosition = demo_cube.worldPosition
        ∧ obj1.worldScale = demo_cube.worldScale)
      ∧ (∃ st1 obj1, update_object_property demo_state "Cube" "scale" "5.0" (some "x")
          = ([.update_success], st1)
        ∧ scene_get st1.scene "Cube" = some obj1
        ∧ vec_getattr obj1.worldScale "x" = some 5
        ∧ (∀ b, (b = "x" ∨ b = "y" ∨ b = "z") → b ≠ "x" →
            vec_getattr obj1.worldScale b = vec_getattr demo_cube.worldScale b)
        ∧ obj1.worldPosition = demo_cube.worldPosition
        ∧ obj1.worldOrientationEuler = demo_cube.worldOrientationEuler)) :=
  ⟨rfl, by simp +decide [pyFloatOfString, digitsToNat],
   C9_transform_axis_update_isolated demo_state "Cube" "5.0" "x" demo_cube 5 rfl
     (Or.inl rfl) (by simp +decide [pyFloatOfString, digitsToNat])⟩
